import Mathlib

/-!
Verification of the MunchGo Cognito Pre Token Generation Lambda
(`terraform/modules/cognito/lambda/pre_token_generation.py`).

The handler is a pure transformation of a JSON-like event record.  We model
Python values flowing through the handler with the inductive type `JValue`
(JSON values), Python dictionaries as ordered association lists with unique
keys (lookup returns the first match; assignment replaces the first match in
place or appends), and the handler itself as `lambda_handler : JValue →
Except String JValue`, where `Except.error` models an uncaught Python
exception (`AttributeError`, `KeyError`, `TypeError`).
-/

/-- A Python/JSON value as it occurs in a Cognito trigger event. -/
inductive JValue where
  | null : JValue
  | bool : Bool → JValue
  | num : Int → JValue
  | str : String → JValue
  | arr : List JValue → JValue
  | obj : List (String × JValue) → JValue
deriving Repr

/-- Python dict lookup `d[k]` as an `Option`: the value of the first entry
whose key is `k`, `none` when absent. -/
def dictGet : List (String × JValue) → String → Option JValue
  | [], _ => none
  | (k', v') :: rest, k => if k' = k then some v' else dictGet rest k

/-- Python dict assignment `d[k] = v`: replace the first entry with key `k`
in place, or append the new entry when `k` is absent. -/
def dictSet : List (String × JValue) → String → JValue → List (String × JValue)
  | [], k, v => [(k, v)]
  | (k', v') :: rest, k, v =>
      if k' = k then (k, v) :: rest else (k', v') :: dictSet rest k v

/-- Python `x.get(k, default)`: succeeds only when `x` is a dict (anything
else raises `AttributeError`, as `.get` does not exist on it); returns the
stored value when the key is present (even when that value is `None`),
otherwise the default. -/
def pyGetD (v : JValue) (k : String) (dflt : JValue) : Except String JValue :=
  match v with
  | .obj d => .ok ((dictGet d k).getD dflt)
  | _ => .error "AttributeError: value has no attribute get"

/-- Python truthiness (`if x:`): `None`, `False`, `0`, `""`, `[]`, `\x7b\x7d`
are falsy, everything else truthy. -/
def truthy : JValue → Bool
  | .null => false
  | .bool b => b
  | .num n => n != 0
  | .str s => s != ""
  | .arr xs => !xs.isEmpty
  | .obj d => !d.isEmpty

/-- The elements of a list when every one of them is a string (`None`
otherwise), as `str.join` requires of its iterable. -/
def strElems : List JValue → Option (List String)
  | [] => some []
  | v :: rest =>
      match v with
      | .str s => (strElems rest).map (fun ss => s :: ss)
      | _ => none

/-- Python `",".join(x)`: over a list it requires every element to be a
string and joins them with a single comma; over a string it joins the
characters; over a dict it joins the keys; any other argument raises
`TypeError`. -/
def pyJoinComma : JValue → Except String String
  | .arr xs =>
      match strElems xs with
      | some ss => .ok (String.intercalate "," ss)
      | none => .error "TypeError: sequence item is not a string"
  | .str s => .ok (String.intercalate "," (s.toList.map (fun c => String.mk [c])))
  | .obj d => .ok (String.intercalate "," (d.map (·.1)))
  | _ => .error "TypeError: can only join an iterable"

/-- Line 54 of the handler:
`groups = event.get("request", \x7b\x7d).get("groupConfiguration", \x7b\x7d).get("groupsToOverride", [])`. -/
def extractGroups (event : JValue) : Except String JValue :=
  match pyGetD event "request" (.obj []) with
  | .error e => .error e
  | .ok req =>
      match pyGetD req "groupConfiguration" (.obj []) with
      | .error e => .error e
      | .ok gc => pyGetD gc "groupsToOverride" (.arr [])

/-- Line 55: `roles_claim = ",".join(groups) if groups else ""`. -/
def buildRolesClaim (groups : JValue) : Except String String :=
  if truthy groups then pyJoinComma groups else .ok ""

/-- Lines 60-62: `claims_override = \x7b\x7d` then
`if roles_claim: claims_override["custom:roles"] = roles_claim`. -/
def claims_override (roles_claim : String) : JValue :=
  if roles_claim = "" then .obj []
  else .obj [("custom:roles", .str roles_claim)]

/-- Lines 65-74, the right-hand side of the assignment: the freshly built
`claimsAndScopeOverrideDetails` section. -/
def buildOverride (roles_claim : String) : JValue :=
  .obj [("idTokenGeneration",
          .obj [("claimsToAddOrOverride", claims_override roles_claim)]),
        ("accessTokenGeneration",
          .obj [("claimsToAddOrOverride", claims_override roles_claim),
                ("scopesToAdd", .arr []),
                ("scopesToSuppress", .arr [])])]

/-- Line 65, the assignment
`event["response"]["claimsAndScopeOverrideDetails"] = details`:
`event["response"]` raises `TypeError` when `event` is not a dict and
`KeyError` when the key is absent; the item assignment then raises
`TypeError` when `event["response"]` is not a dict. -/
def setResponseDetails (event details : JValue) : Except String JValue :=
  match event with
  | .obj d =>
      match dictGet d "response" with
      | some (.obj rd) =>
          .ok (.obj (dictSet d "response"
            (.obj (dictSet rd "claimsAndScopeOverrideDetails" details))))
      | some _ => .error "TypeError: item assignment on a non-dict"
      | none => .error "KeyError: response"
  | _ => .error "TypeError: event is not subscriptable"

/-- The whole `lambda_handler(event, context)` of
`pre_token_generation.py` (the `context` argument and the logging calls have
no effect on the result): extract the groups, build the roles claim, build
the override section, store it under
`response.claimsAndScopeOverrideDetails`, and return the mutated event. -/
def lambda_handler (event : JValue) : Except String JValue :=
  match extractGroups event with
  | .error e => .error e
  | .ok groups =>
      match buildRolesClaim groups with
      | .error e => .error e
      | .ok roles_claim => setResponseDetails event (buildOverride roles_claim)

/-- Dict member access `v[k]` read-only, as an `Option` (used to state
properties of outputs; `none` when `v` is not a dict or lacks the key). -/
def pyLookup (v : JValue) (k : String) : Option JValue :=
  match v with
  | .obj d => dictGet d k
  | _ => none

/-- The `claimsToAddOrOverride` mapping of the identity-token section of an
event, when present. -/
def idClaims (e : JValue) : Option JValue :=
  (((pyLookup e "response").bind
      (fun r => pyLookup r "claimsAndScopeOverrideDetails")).bind
    (fun o => pyLookup o "idTokenGeneration")).bind
  (fun t => pyLookup t "claimsToAddOrOverride")

/-- The `claimsToAddOrOverride` mapping of the access-token section of an
event, when present. -/
def accessClaims (e : JValue) : Option JValue :=
  (((pyLookup e "response").bind
      (fun r => pyLookup r "claimsAndScopeOverrideDetails")).bind
    (fun o => pyLookup o "accessTokenGeneration")).bind
  (fun t => pyLookup t "claimsToAddOrOverride")

/-- The `scopesToAdd` sequence of the access-token section of an event. -/
def accessScopesToAdd (e : JValue) : Option JValue :=
  (((pyLookup e "response").bind
      (fun r => pyLookup r "claimsAndScopeOverrideDetails")).bind
    (fun o => pyLookup o "accessTokenGeneration")).bind
  (fun t => pyLookup t "scopesToAdd")

/-- The `scopesToSuppress` sequence of the access-token section of an
event. -/
def accessScopesToSuppress (e : JValue) : Option JValue :=
  (((pyLookup e "response").bind
      (fun r => pyLookup r "claimsAndScopeOverrideDetails")).bind
    (fun o => pyLookup o "accessTokenGeneration")).bind
  (fun t => pyLookup t "scopesToSuppress")

/-- The `response.claimsAndScopeOverrideDetails` section of an event. -/
def overrideSection (e : JValue) : Option JValue :=
  (pyLookup e "response").bind
    (fun r => pyLookup r "claimsAndScopeOverrideDetails")

/-- The override section the handler freshly constructs from the input
event alone (steps 1-4 of the algorithm, independent of any prior
`response.claimsAndScopeOverrideDetails` content). -/
def freshOverride (event : JValue) : Except String JValue :=
  match extractGroups event with
  | .error e => .error e
  | .ok groups =>
      match buildRolesClaim groups with
      | .error e => .error e
      | .ok roles_claim => .ok (buildOverride roles_claim)

/-- The shape of every successful handler output, given the input top-level
dict `d`, its response dict `rd` and the computed roles claim. -/
def outShape (d rd : List (String × JValue)) (roles_claim : String) : JValue :=
  .obj (dictSet d "response"
    (.obj (dictSet rd "claimsAndScopeOverrideDetails" (buildOverride roles_claim))))

-- Sample events used by witnesses and counterexamples.

/-- Event with two groups and an empty `response` dict. -/
def evTwoGroups : JValue :=
  .obj [("userName", .str "alice"),
        ("request", .obj [("groupConfiguration",
          .obj [("groupsToOverride",
            .arr [.str "ROLE_CUSTOMER", .str "ROLE_ADMIN"])])]),
        ("response", .obj [])]

/-- Output of the handler on `evTwoGroups`. -/
def evTwoGroupsOut : JValue :=
  .obj [("userName", .str "alice"),
        ("request", .obj [("groupConfiguration",
          .obj [("groupsToOverride",
            .arr [.str "ROLE_CUSTOMER", .str "ROLE_ADMIN"])])]),
        ("response", .obj [("claimsAndScopeOverrideDetails",
          buildOverride "ROLE_CUSTOMER,ROLE_ADMIN")])]

/-- Whether a (possibly absent) value is a dict containing the key `k`. -/
def hasKey (o : Option JValue) (k : String) : Bool :=
  match o with
  | some (.obj d) => (dictGet d k).isSome
  | _ => false

/-- Event whose group sequence is the single empty string. -/
def evEmptyStringGroup : JValue :=
  .obj [("request", .obj [("groupConfiguration",
          .obj [("groupsToOverride", .arr [.str ""])])]),
        ("response", .obj [])]

/-- Output of the handler on `evEmptyStringGroup`. -/
def evEmptyStringGroupOut : JValue :=
  .obj [("request", .obj [("groupConfiguration",
          .obj [("groupsToOverride", .arr [.str ""])])]),
        ("response", .obj [("claimsAndScopeOverrideDetails", buildOverride "")])]

/-- Event with an empty group sequence and an empty `response` dict. -/
def evEmptyGroups : JValue :=
  .obj [("request", .obj [("groupConfiguration",
          .obj [("groupsToOverride", .arr [])])]),
        ("response", .obj [])]

/-- Output of the handler on `evEmptyGroups`. -/
def evEmptyGroupsOut : JValue :=
  .obj [("request", .obj [("groupConfiguration",
          .obj [("groupsToOverride", .arr [])])]),
        ("response", .obj [("claimsAndScopeOverrideDetails", buildOverride "")])]

/-- Event carrying pre-existing content both inside
`response.claimsAndScopeOverrideDetails` and beside it. -/
def evPrior : JValue :=
  .obj [("request", .obj [("groupConfiguration",
          .obj [("groupsToOverride", .arr [.str "ROLE_ADMIN"])])]),
        ("response", .obj [("claimsAndScopeOverrideDetails",
            .obj [("idTokenGeneration", .str "stale"),
                  ("extraStale", .num 7)]),
          ("otherKey", .str "kept")])]

/-- Output of the handler on `evPrior`. -/
def evPriorOut : JValue :=
  .obj [("request", .obj [("groupConfiguration",
          .obj [("groupsToOverride", .arr [.str "ROLE_ADMIN"])])]),
        ("response", .obj [("claimsAndScopeOverrideDetails",
            buildOverride "ROLE_ADMIN"),
          ("otherKey", .str "kept")])]

/-- Top-level dict of the event whose `groupsToOverride` is `None`. -/
def evNullGroupsDict : List (String × JValue) :=
  [("request", .obj [("groupConfiguration",
      .obj [("groupsToOverride", .null)])]),
   ("response", .obj [])]

/-- Event whose `groupsToOverride` key is present but holds `None`. -/
def evNullGroups : JValue := .obj evNullGroupsDict

example : lambda_handler evTwoGroups = .ok evTwoGroupsOut := rfl

example : idClaims evTwoGroupsOut =
    some (.obj [("custom:roles", .str "ROLE_CUSTOMER,ROLE_ADMIN")]) := rfl

/-! ### Association-list lemmas -/

theorem dictGet_dictSet_self (d : List (String × JValue)) (k : String) (v : JValue) :
    dictGet (dictSet d k v) k = some v := by
  induction d with
  | nil => simp [dictGet, dictSet]
  | cons p rest ih =>
      obtain ⟨k', v'⟩ := p
      by_cases h : k' = k
      · simp [dictGet, dictSet, h]
      · simp [dictGet, dictSet, h, ih]

theorem dictGet_dictSet_ne (d : List (String × JValue)) (k k' : String) (v : JValue)
    (h : k' ≠ k) : dictGet (dictSet d k v) k' = dictGet d k' := by
  have hk : ¬(k = k') := fun hh => h hh.symm
  induction d with
  | nil => simp [dictGet, dictSet, hk]
  | cons p rest ih =>
      obtain ⟨k₀, v₀⟩ := p
      by_cases h0 : k₀ = k
      · simp [dictGet, dictSet, h0, hk]
      · simp [dictGet, dictSet, h0, ih]

theorem dictSet_dictSet_self (d : List (String × JValue)) (k : String) (v : JValue) :
    dictSet (dictSet d k v) k v = dictSet d k v := by
  induction d with
  | nil => simp [dictSet]
  | cons p rest ih =>
      obtain ⟨k', v'⟩ := p
      by_cases h : k' = k
      · simp [dictSet, h]
      · simp [dictSet, h, ih]

/-! ### Characterization of the handler -/

theorem handler_ok_elim {e e' : JValue} (h : lambda_handler e = Except.ok e') :
    ∃ d rd groups roles_claim,
      e = .obj d ∧
      extractGroups e = .ok groups ∧
      buildRolesClaim groups = .ok roles_claim ∧
      dictGet d "response" = some (.obj rd) ∧
      e' = outShape d rd roles_claim := by
  cases hg : extractGroups e with
  | error msg => simp [lambda_handler, hg] at h
  | ok groups =>
      cases hrc : buildRolesClaim groups with
      | error msg => simp [lambda_handler, hg, hrc] at h
      | ok rc =>
          simp only [lambda_handler, hg, hrc] at h
          cases e with
          | obj d =>
              cases hrd : dictGet d "response" with
              | none => simp [setResponseDetails, hrd] at h
              | some rv =>
                  cases rv with
                  | obj rd =>
                      simp only [setResponseDetails, hrd, Except.ok.injEq] at h
                      refine ⟨d, rd, groups, rc, rfl, ?_, ?_, ?_, h.symm⟩ <;>
                        simp [hg, hrc, hrd]
                  | null => simp [setResponseDetails, hrd] at h
                  | bool b => simp [setResponseDetails, hrd] at h
                  | num n => simp [setResponseDetails, hrd] at h
                  | str s => simp [setResponseDetails, hrd] at h
                  | arr xs => simp [setResponseDetails, hrd] at h
          | null => simp [setResponseDetails] at h
          | bool b => simp [setResponseDetails] at h
          | num n => simp [setResponseDetails] at h
          | str s => simp [setResponseDetails] at h
          | arr xs => simp [setResponseDetails] at h

theorem handler_ok_intro (d rd : List (String × JValue)) (groups : JValue)
    (rc : String)
    (hg : extractGroups (.obj d) = .ok groups)
    (hrc : buildRolesClaim groups = .ok rc)
    (hrd : dictGet d "response" = some (.obj rd)) :
    lambda_handler (.obj d) = .ok (outShape d rd rc) := by
  simp only [lambda_handler, hg, hrc, setResponseDetails, hrd, outShape]

/-! ### Shape of the successful output -/

theorem overrideSection_outShape (d rd : List (String × JValue)) (rc : String) :
    overrideSection (outShape d rd rc) = some (buildOverride rc) := by
  simp [overrideSection, outShape, pyLookup, dictGet_dictSet_self]

theorem idClaims_outShape (d rd : List (String × JValue)) (rc : String) :
    idClaims (outShape d rd rc) = some (claims_override rc) := by
  simp [idClaims, outShape, pyLookup, dictGet_dictSet_self, buildOverride, dictGet]

theorem accessClaims_outShape (d rd : List (String × JValue)) (rc : String) :
    accessClaims (outShape d rd rc) = some (claims_override rc) := by
  simp [accessClaims, outShape, pyLookup, dictGet_dictSet_self, buildOverride, dictGet]

theorem accessScopesToAdd_outShape (d rd : List (String × JValue)) (rc : String) :
    accessScopesToAdd (outShape d rd rc) = some (.arr []) := by
  simp [accessScopesToAdd, outShape, pyLookup, dictGet_dictSet_self, buildOverride,
    dictGet]

theorem accessScopesToSuppress_outShape (d rd : List (String × JValue)) (rc : String) :
    accessScopesToSuppress (outShape d rd rc) = some (.arr []) := by
  simp [accessScopesToSuppress, outShape, pyLookup, dictGet_dictSet_self, buildOverride,
    dictGet]

theorem extractGroups_congr (d₁ d₂ : List (String × JValue))
    (h : dictGet d₁ "request" = dictGet d₂ "request") :
    extractGroups (.obj d₁) = extractGroups (.obj d₂) := by
  simp only [extractGroups, pyGetD, h]

theorem extractGroups_outShape (d rd : List (String × JValue)) (rc : String) :
    extractGroups (outShape d rd rc) = extractGroups (.obj d) := by
  exact extractGroups_congr _ _ (dictGet_dictSet_ne d "response" "request" _ (by decide))

theorem strElems_map_str (g : List String) :
    strElems (g.map JValue.str) = some g := by
  induction g with
  | nil => rfl
  | cons a t ih => simp [strElems, ih]

theorem pyJoinComma_strs (g : List String) :
    pyJoinComma (.arr (g.map JValue.str)) = .ok (String.intercalate "," g) := by
  simp [pyJoinComma, strElems_map_str]

theorem buildRolesClaim_strs (g : List String) (hne : g ≠ []) :
    buildRolesClaim (.arr (g.map JValue.str)) = .ok (String.intercalate "," g) := by
  have ht : truthy (.arr (g.map JValue.str)) = true := by
    simp [truthy, hne]
  simp [buildRolesClaim, ht, pyJoinComma_strs]

/-! ### The claims -/

/-- Claim C3: whenever the extracted `groupsToOverride` sequence is empty
(which covers both an explicitly empty sequence and a `groupConfiguration` /
`groupsToOverride` path that is entirely absent, since every absent section
defaults to empty), the `claimsToAddOrOverride` mapping the handler produces
for both token sections is the empty mapping, with no `custom:roles` key at
all. -/
theorem c3_empty_groups_empty_claims (e e' : JValue)
    (hg : extractGroups e = .ok (.arr []))
    (h : lambda_handler e = .ok e') :
    idClaims e' = some (.obj []) ∧ accessClaims e' = some (.obj []) := by
  obtain ⟨d, rd, groups, rc, rfl, hg', hrc, hrd, rfl⟩ := handler_ok_elim h
  rw [hg] at hg'
  injection hg' with hgr
  rw [← hgr] at hrc
  have : rc = "" := by
    have hb : buildRolesClaim (.arr []) = .ok "" := rfl
    rw [hb] at hrc
    injection hrc with h2
    exact h2.symm
  subst this
  refine ⟨?_, ?_⟩ <;> simp [idClaims_outShape, accessClaims_outShape, claims_override]

/-- Claim C3 witness: on the concrete event with an empty group list the
handler succeeds and both claims mappings are the empty mapping. -/
theorem c3_witness :
    idClaims evEmptyGroupsOut = some (.obj []) ∧
    accessClaims evEmptyGroupsOut = some (.obj []) :=
  c3_empty_groups_empty_claims evEmptyGroups evEmptyGroupsOut rfl rfl

/-- Claim C4: on every successful run the identity-token
`claimsToAddOrOverride` mapping and the access-token `claimsToAddOrOverride`
mapping of the output are equal. -/
theorem c4_id_access_claims_equal (e e' : JValue)
    (h : lambda_handler e = .ok e') :
    idClaims e' = accessClaims e' := by
  obtain ⟨d, rd, groups, rc, rfl, hg, hrc, hrd, rfl⟩ := handler_ok_elim h
  rw [idClaims_outShape, accessClaims_outShape]

/-- Claim C4 witness: the two mappings agree on the concrete two-group
event. -/
theorem c4_witness : idClaims evTwoGroupsOut = accessClaims evTwoGroupsOut :=
  c4_id_access_claims_equal evTwoGroups evTwoGroupsOut rfl

/-- Claim C5: on every successful run the `scopesToAdd` and
`scopesToSuppress` sequences of the access-token section of the output are
empty, regardless of the input content. -/
theorem c5_scopes_always_empty (e e' : JValue)
    (h : lambda_handler e = .ok e') :
    accessScopesToAdd e' = some (.arr []) ∧
    accessScopesToSuppress e' = some (.arr []) := by
  obtain ⟨d, rd, groups, rc, rfl, hg, hrc, hrd, rfl⟩ := handler_ok_elim h
  exact ⟨accessScopesToAdd_outShape d rd rc, accessScopesToSuppress_outShape d rd rc⟩

/-- Claim C5 witness: both scope sequences are empty on the concrete
two-group event. -/
theorem c5_witness :
    accessScopesToAdd evTwoGroupsOut = some (.arr []) ∧
    accessScopesToSuppress evTwoGroupsOut = some (.arr []) :=
  c5_scopes_always_empty evTwoGroups evTwoGroupsOut rfl

/-- Claim C6: on every successful run the
`response.claimsAndScopeOverrideDetails` value of the output equals exactly
the freshly constructed override section computed from the input event
alone (steps 1-4 of the algorithm), so no content of any prior
`claimsAndScopeOverrideDetails` value survives. -/
theorem c6_wholesale_replacement (e e' : JValue)
    (h : lambda_handler e = .ok e') :
    overrideSection e' = (freshOverride e).toOption := by
  obtain ⟨d, rd, groups, rc, rfl, hg, hrc, hrd, rfl⟩ := handler_ok_elim h
  rw [overrideSection_outShape]
  simp [freshOverride, hg, hrc, Except.toOption]

/-- Claim C6 witness: on a concrete event whose
`claimsAndScopeOverrideDetails` already held stale entries, the output
section equals the fresh one (the stale entries are gone). -/
theorem c6_witness : overrideSection evPriorOut = (freshOverride evPrior).toOption :=
  c6_wholesale_replacement evPrior evPriorOut rfl

/-- Claim C1, counterexample: for the group sequence `g = [""]` we have
`len(g) = 1 > 0` and the comma-join of `g` is the empty string, yet the
handler succeeds with an empty claims mapping: it does not set a
`custom:roles` claim to the join (the key is entirely absent), so the claim
as stated fails at this input. -/
theorem c1_counterexample :
    0 < (List.length [""]) ∧
    String.intercalate "," [""] = "" ∧
    extractGroups evEmptyStringGroup = .ok (.arr ([""].map JValue.str)) ∧
    lambda_handler evEmptyStringGroup = .ok evEmptyStringGroupOut ∧
    idClaims evEmptyStringGroupOut = some (.obj []) ∧
    ¬(idClaims evEmptyStringGroupOut =
        some (.obj [("custom:roles", .str (String.intercalate "," [""]))])) := by
  refine ⟨by decide, rfl, rfl, rfl, rfl, ?_⟩
  intro h
  rw [show idClaims evEmptyStringGroupOut = some (JValue.obj []) from rfl] at h
  simp at h

/-- Claim C1 as amended: for every group sequence `g` read from
`request.groupConfiguration.groupsToOverride` with `len(g) > 0` whose
comma-join is non-empty (which excludes only `g = [""]`), a successful run
sets the `custom:roles` claim in both token sections to the elements of `g`
joined with a single comma, preserving input order and retaining
duplicates, with no deduplication. -/
theorem c1_roles_join (e e' : JValue) (g : List String)
    (hg : extractGroups e = .ok (.arr (g.map JValue.str)))
    (hj : String.intercalate "," g ≠ "")
    (h : lambda_handler e = .ok e') :
    idClaims e' = some (.obj [("custom:roles", .str (String.intercalate "," g))]) ∧
    accessClaims e' =
      some (.obj [("custom:roles", .str (String.intercalate "," g))]) := by
  have hne : g ≠ [] := by
    intro hnil
    rw [hnil] at hj
    exact hj rfl
  obtain ⟨d, rd, groups, rc, rfl, hg', hrc, hrd, rfl⟩ := handler_ok_elim h
  rw [hg] at hg'
  injection hg' with hgr
  rw [← hgr] at hrc
  rw [buildRolesClaim_strs g hne] at hrc
  injection hrc with hrc2
  rw [← hrc2]
  rw [idClaims_outShape, accessClaims_outShape]
  simp [claims_override, hj]

/-- Claim C1 witness: on the concrete two-group event both token sections
carry `custom:roles` set to the order-preserving comma-join. -/
theorem c1_witness :
    idClaims evTwoGroupsOut = some (.obj [("custom:roles",
      .str (String.intercalate "," ["ROLE_CUSTOMER", "ROLE_ADMIN"]))]) ∧
    accessClaims evTwoGroupsOut = some (.obj [("custom:roles",
      .str (String.intercalate "," ["ROLE_CUSTOMER", "ROLE_ADMIN"]))]) :=
  c1_roles_join evTwoGroups evTwoGroupsOut ["ROLE_CUSTOMER", "ROLE_ADMIN"]
    rfl (by decide) rfl

/-- Claim C2, counterexample: an event whose `response` section is entirely
absent makes the handler raise (`event["response"]` is a `KeyError`), so the
absence of `response` is not treated as an empty mapping and the claim as
stated fails at this input. -/
theorem c2_counterexample :
    dictGet [("userName", JValue.str "bob")] "response" = none ∧
    lambda_handler (.obj [("userName", .str "bob")]) =
      .error "KeyError: response" := ⟨rfl, rfl⟩

/-- Claim C2 as amended: the handler succeeds whenever the `response`
section is present as a mapping and any of the read-side sections is
absent — an absent `request`, an absent `groupConfiguration` inside
`request`, or an absent `groupsToOverride` inside `groupConfiguration` is
treated as an empty mapping/sequence and the operation completes normally
(producing the override section with an empty claims mapping); an absent
`response`, however, raises a `KeyError` (see the counterexample). -/
theorem c2_absence_tolerated (d rd : List (String × JValue))
    (hresp : dictGet d "response" = some (.obj rd))
    (habs : dictGet d "request" = none ∨
      (∃ rq, dictGet d "request" = some (.obj rq) ∧
        dictGet rq "groupConfiguration" = none) ∨
      (∃ rq gc, dictGet d "request" = some (.obj rq) ∧
        dictGet rq "groupConfiguration" = some (.obj gc) ∧
        dictGet gc "groupsToOverride" = none)) :
    lambda_handler (.obj d) = .ok (outShape d rd "") := by
  have hg : extractGroups (.obj d) = .ok (.arr []) := by
    rcases habs with h1 | ⟨rq, h1, h2⟩ | ⟨rq, gc, h1, h2, h3⟩
    · simp [extractGroups, pyGetD, h1, dictGet]
    · simp [extractGroups, pyGetD, h1, h2, dictGet]
    · simp [extractGroups, pyGetD, h1, h2, h3]
  exact handler_ok_intro d rd (.arr []) "" hg rfl hresp

/-- Claim C2 witness: the handler completes normally on an event carrying
nothing but a `response` dict (the whole `request` side absent). -/
theorem c2_witness :
    lambda_handler (.obj [("response", .obj [])]) =
      .ok (outShape [("response", .obj [])] [] "") :=
  c2_absence_tolerated [("response", .obj [])] [] rfl (Or.inl rfl)

/-- Claim C7: on every successful run, every top-level field of the event
other than `response` (in particular `userName` and the entire `request`
section) is unchanged, and inside `response` every key other than
`claimsAndScopeOverrideDetails` is unchanged. -/
theorem c7_frame (e e' : JValue)
    (h : lambda_handler e = .ok e') :
    (∀ k, k ≠ "response" → pyLookup e' k = pyLookup e k) ∧
    (∀ k, k ≠ "claimsAndScopeOverrideDetails" →
      (pyLookup e' "response").bind (fun r => pyLookup r k) =
      (pyLookup e "response").bind (fun r => pyLookup r k)) := by
  obtain ⟨d, rd, groups, rc, rfl, hg, hrc, hrd, rfl⟩ := handler_ok_elim h
  constructor
  · intro k hk
    simp [pyLookup, outShape, dictGet_dictSet_ne d "response" k _ hk]
  · intro k hk
    simp [pyLookup, outShape, dictGet_dictSet_self, hrd,
      dictGet_dictSet_ne rd "claimsAndScopeOverrideDetails" k _ hk]

/-- Claim C7 witness: on the concrete event with prior response content,
`userName` is absent before and after, `request` and the unrelated response
key `otherKey` keep their values. -/
theorem c7_witness :
    pyLookup evPriorOut "userName" = pyLookup evPrior "userName" ∧
    pyLookup evPriorOut "request" = pyLookup evPrior "request" ∧
    (pyLookup evPriorOut "response").bind (fun r => pyLookup r "otherKey") =
      (pyLookup evPrior "response").bind (fun r => pyLookup r "otherKey") :=
  ⟨(c7_frame evPrior evPriorOut rfl).1 "userName" (by decide),
   (c7_frame evPrior evPriorOut rfl).1 "request" (by decide),
   (c7_frame evPrior evPriorOut rfl).2 "otherKey" (by decide)⟩

theorem handler_on_outShape (d rd : List (String × JValue)) (groups : JValue)
    (rc : String)
    (hg : extractGroups (.obj d) = .ok groups)
    (hrc : buildRolesClaim groups = .ok rc) :
    lambda_handler (outShape d rd rc) = .ok (outShape d rd rc) := by
  have hg2 : extractGroups (outShape d rd rc) = .ok groups := by
    rw [extractGroups_outShape]
    exact hg
  have h := handler_ok_intro
    (dictSet d "response"
      (.obj (dictSet rd "claimsAndScopeOverrideDetails" (buildOverride rc))))
    (dictSet rd "claimsAndScopeOverrideDetails" (buildOverride rc)) groups rc
    hg2 hrc (dictGet_dictSet_self d "response" _)
  rw [show outShape d rd rc = .obj (dictSet d "response"
    (.obj (dictSet rd "claimsAndScopeOverrideDetails" (buildOverride rc))))
    from rfl]
  rw [h]
  simp only [outShape, dictSet_dictSet_self]

/-- Claim C8: the handler is idempotent: feeding its own output back in
(the `request` section is unchanged by a run) produces the very same
output, `Enrich (Enrich e) = Enrich e`; when the first run raises, the
composite raises identically. -/
theorem c8_idempotent (e : JValue) :
    (lambda_handler e).bind lambda_handler = lambda_handler e := by
  cases he : lambda_handler e with
  | error msg => rfl
  | ok e' =>
      show lambda_handler e' = Except.ok e'
      obtain ⟨d, rd, groups, rc, rfl, hg, hrc, hrd, rfl⟩ := handler_ok_elim he
      exact handler_on_outShape d rd groups rc hg hrc

/-- Claim C9: when the `groupsToOverride` key is present but holds `None`
(or any other falsy value: `False`, `0`, `""`, an empty list or dict), the
handler raises no error and behaves exactly as if the sequence were empty:
the roles string is empty, the run succeeds, and no `custom:roles` claim is
produced in either token section. -/
theorem c9_falsy_groups (d rd : List (String × JValue)) (v : JValue)
    (hg : extractGroups (.obj d) = .ok v)
    (hfalsy : truthy v = false)
    (hrd : dictGet d "response" = some (.obj rd)) :
    lambda_handler (.obj d) = .ok (outShape d rd "") ∧
    idClaims (outShape d rd "") = some (.obj []) ∧
    accessClaims (outShape d rd "") = some (.obj []) := by
  have hrc : buildRolesClaim v = .ok "" := by
    simp [buildRolesClaim, hfalsy]
  refine ⟨handler_ok_intro d rd v "" hg hrc hrd, ?_, ?_⟩ <;>
    simp [idClaims_outShape, accessClaims_outShape, claims_override]

/-- Claim C9 witness: the concrete event whose `groupsToOverride` holds
`None` is handled without error and yields empty claims mappings. -/
theorem c9_witness :
    lambda_handler evNullGroups = .ok (outShape evNullGroupsDict [] "") ∧
    idClaims (outShape evNullGroupsDict [] "") = some (.obj []) ∧
    accessClaims (outShape evNullGroupsDict [] "") = some (.obj []) :=
  c9_falsy_groups evNullGroupsDict [] .null rfl rfl rfl

/-- Claim C10: for a group sequence read from the event, the `custom:roles`
key is present in the output (in the identity-token section as in the
access-token section) if and only if the comma-join of the sequence is a
non-empty string; in particular `g = [""]` has `len(g) > 0` yet joins to
the empty string and produces no key. -/
theorem c10_key_iff_join_nonempty (e e' : JValue) (gs : List JValue) (j : String)
    (hg : extractGroups e = .ok (.arr gs))
    (hj : pyJoinComma (.arr gs) = .ok j)
    (h : lambda_handler e = .ok e') :
    (hasKey (idClaims e') "custom:roles" = true ↔ j ≠ "") ∧
    (hasKey (accessClaims e') "custom:roles" = true ↔ j ≠ "") := by
  obtain ⟨d, rd, groups, rc, rfl, hg', hrc, hrd, rfl⟩ := handler_ok_elim h
  rw [hg] at hg'
  injection hg' with hgr
  rw [← hgr] at hrc
  have hrcj : rc = j := by
    by_cases hgs : gs = []
    · subst hgs
      rw [show buildRolesClaim (.arr []) = .ok "" from rfl] at hrc
      rw [show pyJoinComma (.arr []) = .ok "" from rfl] at hj
      injection hrc with h1
      injection hj with h2
      rw [← h1, ← h2]
    · have ht : truthy (.arr gs) = true := by simp [truthy, hgs]
      rw [buildRolesClaim, ht, if_pos rfl, hj] at hrc
      injection hrc with h1
      exact h1.symm
  subst hrcj
  rw [idClaims_outShape, accessClaims_outShape]
  by_cases hj0 : rc = ""
  · subst hj0
    simp [hasKey, claims_override, dictGet]
  · simp [hasKey, claims_override, hj0, dictGet]

/-- Claim C10 witness: for the concrete event with group sequence `[""]`
(non-empty, joining to the empty string) the `custom:roles` key is absent
from both sections, instantiating the only-if direction at an input with
`len(g) > 0`. -/
theorem c10_witness :
    (hasKey (idClaims evEmptyStringGroupOut) "custom:roles" = true ↔
      ("" : String) ≠ "") ∧
    (hasKey (accessClaims evEmptyStringGroupOut) "custom:roles" = true ↔
      ("" : String) ≠ "") :=
  c10_key_iff_join_nonempty evEmptyStringGroup evEmptyStringGroupOut
    [.str ""] "" rfl rfl rfl
